import Mathlib

/-!
Verification of the Impetus inertial-drag engine (`src/impetus.js`).

Numbers are modelled as rationals.  JS fields initialised to `null` and
later used arithmetically (`pointerCurrentX`, `decVelX`, ...) are modelled
as rationals initialised to 0, matching the JS coercion of `null` to 0 in
arithmetic.  The two `requestAnimationFrame` slots (`stepDecelRaf`,
`tickRaf`) are modelled as Booleans: `true` means a frame callback is
pending in that slot.  The `update` callback is modelled by a counter
`updates` of how many times it has fired.  A separate model of JS
IEEE-754 special values (`JSVal`) is used where the exact JS division
semantics matters (release-velocity estimation).
-/

namespace Impetus

/-- One recorded pointer position, the `{ x, y, time }` record pushed by
`addTrackingPoint`. -/
structure TrackingPoint where
  x : ℚ
  y : ℚ
  time : ℚ
  deriving Repr, DecidableEq

/-- The engine state: the `this.options` record of `impetus.js` together
with the instance fields `stepDecelRaf` / `tickRaf` (pending-frame flags),
whether the constructor-installed listeners are still attached, and the
count of `update`-callback invocations. -/
structure EngineState where
  bounce : Bool
  friction : ℚ
  multiplier : ℚ
  stopThreshold : ℚ
  targetX : ℚ
  targetY : ℚ
  paused : Bool
  ticking : Bool
  decelerating : Bool
  pointerActive : Bool
  trackingPoints : List TrackingPoint
  pointerCurrentX : ℚ
  pointerCurrentY : ℚ
  pointerLastX : ℚ
  pointerLastY : ℚ
  boundXmin : Option ℚ
  boundXmax : Option ℚ
  boundYmin : Option ℚ
  boundYmax : Option ℚ
  pointerId : Option ℤ
  decVelX : ℚ
  decVelY : ℚ
  stepDecelRaf : Bool
  tickRaf : Bool
  listenersAttached : Bool
  updates : Nat
  deriving Repr, DecidableEq

/-- JS constant `STOP_THRESHOLD_DEFAULT = 0.3`. -/
def STOP_THRESHOLD_DEFAULT : ℚ := 3 / 10

/-- JS constant `BOUNCE_DECELERATION = 0.04`. -/
def BOUNCE_DECELERATION : ℚ := 4 / 100

/-- JS constant `BOUNCE_ACCELERATION = 0.11`. -/
def BOUNCE_ACCELERATION : ℚ := 11 / 100

/-- JS `dragOutOfBoundsMultiplier(val)`:
`0.000005 * val ** 2 + 0.0001 * val + 0.55`. -/
def dragOutOfBoundsMultiplier (val : ℚ) : ℚ :=
  5 / 1000000 * val ^ 2 + 1 / 10000 * val + 55 / 100

/-- Engine state right after the constructor runs with only an `update`
callback supplied (all option defaults, no `initialValues`, no bounds). -/
def initState : EngineState where
  bounce := true
  friction := 92 / 100
  multiplier := 1
  stopThreshold := STOP_THRESHOLD_DEFAULT * 1
  targetX := 0
  targetY := 0
  paused := false
  ticking := false
  decelerating := false
  pointerActive := false
  trackingPoints := []
  pointerCurrentX := 0
  pointerCurrentY := 0
  pointerLastX := 0
  pointerLastY := 0
  boundXmin := none
  boundXmax := none
  boundYmin := none
  boundYmax := none
  pointerId := none
  decVelX := 0
  decVelY := 0
  stepDecelRaf := false
  tickRaf := false
  listenersAttached := true
  updates := 0

/-- Overflow of one axis, the `xDiff` / `yDiff` computation of
`checkBounds`: the `min` check first, else the `max` check, else 0. -/
def axisOverflow (bmin bmax : Option ℚ) (target : ℚ) : ℚ :=
  match bmin, bmax with
  | some mn, some mx =>
      if target < mn then mn - target else if mx < target then mx - target else 0
  | some mn, none => if target < mn then mn - target else 0
  | none, some mx => if mx < target then mx - target else 0
  | none, none => 0

/-- Result record of `checkBounds`: `{ x, y, inBounds }`. -/
structure BoundsDiff where
  x : ℚ
  y : ℚ
  inBounds : Bool
  deriving Repr, DecidableEq

/-- The diff record `checkBounds` returns: both overflows, and
`inBounds` true iff both are zero. -/
def boundsDiff (s : EngineState) : BoundsDiff :=
  ⟨axisOverflow s.boundXmin s.boundXmax s.targetX,
   axisOverflow s.boundYmin s.boundYmax s.targetY,
   decide (axisOverflow s.boundXmin s.boundXmax s.targetX = 0 ∧
           axisOverflow s.boundYmin s.boundYmax s.targetY = 0)⟩

/-- JS `checkBounds(restrict)`: computes both overflows; with `restrict`
each violated axis is rewritten onto the violated bound
(`xDiff > 0 ? boundXmin : boundXmax`); returns the diff record.  The
`getD 0` stand-in is only reached when the corresponding bound is `null`,
which the sign of the overflow rules out. -/
def checkBounds (s : EngineState) (restrict : Bool) : EngineState × BoundsDiff :=
  let d := boundsDiff s
  let s1 :=
    if restrict = true ∧ d.x ≠ 0 then
      { s with targetX := if 0 < d.x then s.boundXmin.getD 0 else s.boundXmax.getD 0 }
    else s
  let s2 :=
    if restrict = true ∧ d.y ≠ 0 then
      { s1 with targetY := if 0 < d.y then s.boundYmin.getD 0 else s.boundYmax.getD 0 }
    else s1
  (s2, d)

/-- JS `callUpdateCallback`: invokes the update callback (modelled as a
counter bump). -/
def callUpdateCallback (s : EngineState) : EngineState :=
  { s with updates := s.updates + 1 }

/-- Velocity adjustment for one axis with nonzero overflow `d` in the
`bounce` branch of `stepDecelAnim`: gentle pull-back when `d * vel <= 0`,
else rebound with the 2.5 offset. -/
def bounceAxisVel (d vel : ℚ) : ℚ :=
  if d * vel ≤ 0 then vel + d * BOUNCE_DECELERATION
  else (d + if 0 < d then (5 : ℚ) / 2 else -(5 / 2)) * BOUNCE_ACCELERATION

/-- The `if (bounce)` branch of `stepDecelAnim`: per-axis velocity
adjustment on every axis with nonzero overflow. -/
def bounceAdjust (diff : BoundsDiff) (s : EngineState) : EngineState :=
  let s1 := if diff.x ≠ 0 then { s with decVelX := bounceAxisVel diff.x s.decVelX } else s
  if diff.y ≠ 0 then { s1 with decVelY := bounceAxisVel diff.y s1.decVelY } else s1

/-- The `else` (bounce disabled) branch of `stepDecelAnim`: every axis
with nonzero overflow is hard-set onto the violated bound and its
velocity zeroed. -/
def clampAdjust (diff : BoundsDiff) (s : EngineState) : EngineState :=
  let s1 :=
    if diff.x ≠ 0 then
      { s with
          targetX := if 0 < diff.x then s.boundXmin.getD 0 else s.boundXmax.getD 0,
          decVelX := 0 }
    else s
  if diff.y ≠ 0 then
    { s1 with
        targetY := if 0 < diff.y then s1.boundYmin.getD 0 else s1.boundYmax.getD 0,
        decVelY := 0 }
  else s1

/-- JS `stepDecelAnim`: one frame of the deceleration animation.
`checkBounds()` without `restrict` does not change the state, so only its
diff record is kept. -/
def stepDecelAnim (s0 : EngineState) : EngineState :=
  let s := { s0 with stepDecelRaf := false }
  if s.decelerating = false then s
  else
    let s := { s with decVelX := s.decVelX * s.friction, decVelY := s.decVelY * s.friction }
    let s := { s with targetX := s.targetX + s.decVelX, targetY := s.targetY + s.decVelY }
    let diff := boundsDiff s
    if |s.decVelX| ≤ s.stopThreshold ∧ |s.decVelY| ≤ s.stopThreshold ∧ diff.inBounds = true then
      { s with decelerating := false }
    else
      let s := if s.bounce = true then bounceAdjust diff s else clampAdjust diff s
      let s := callUpdateCallback s
      { s with stepDecelRaf := true }

/-- JS `updateAndRender`: the per-move drag-update tick. -/
def updateAndRender (s0 : EngineState) : EngineState :=
  let s := { s0 with tickRaf := false }
  let pointerChangeX := s.pointerCurrentX - s.pointerLastX
  let pointerChangeY := s.pointerCurrentY - s.pointerLastY
  let s := { s with
      targetX := s.targetX + pointerChangeX * s.multiplier,
      targetY := s.targetY + pointerChangeY * s.multiplier }
  let s :=
    if s.bounce = true then
      let diff := boundsDiff s
      let s :=
        if diff.x ≠ 0 then
          { s with targetX :=
              s.targetX - pointerChangeX * dragOutOfBoundsMultiplier diff.x * s.multiplier }
        else s
      if diff.y ≠ 0 then
        { s with targetY :=
            s.targetY - pointerChangeY * dragOutOfBoundsMultiplier diff.y * s.multiplier }
      else s
    else
      (checkBounds s true).1
  let s := callUpdateCallback s
  { s with
      pointerLastX := s.pointerCurrentX,
      pointerLastY := s.pointerCurrentY,
      ticking := false }

/-- JS `onWheel`: direct wheel input; the `decelerating` toggle around the
callback does not persist. -/
def onWheel (deltaX deltaY : ℚ) (s : EngineState) : EngineState :=
  let s := { s with
      targetX := s.targetX - deltaX / 3,
      targetY := s.targetY - deltaY / 3,
      decelerating := true }
  let s := callUpdateCallback s
  { s with decelerating := false }

/-- JS `addTrackingPoint(x, y)`: drops samples older than 100ms from the
front, then appends the new one.  The current time is an explicit argument
(JS reads `Date.now()`). -/
def addTrackingPoint (x y time : ℚ) (s : EngineState) : EngineState :=
  { s with trackingPoints :=
      s.trackingPoints.dropWhile (fun p => decide (100 < time - p.time)) ++ [⟨x, y, time⟩] }

/-- JS `requestTick`: schedules `updateAndRender` at most once per frame. -/
def requestTick (s : EngineState) : EngineState :=
  let s := if s.ticking = false then { s with tickRaf := true } else s
  { s with ticking := true }

/-- JS `startDecelAnim`: estimates release velocity from the first and
last tracking points and enters the decelerating phase when fast enough or
out of bounds.  Over rationals, division by a zero denominator already
yields 0, which coincides with the JS `|| 0` substitution in the NaN case;
the exact JS special-value behaviour is modelled by `jsEstimatedVel`
below.  The empty-window case cannot be reached from `stopTracking`, which
records a point first. -/
def startDecelAnim (s : EngineState) : EngineState :=
  match s.trackingPoints with
  | [] => s
  | firstPoint :: rest =>
    let lastPoint := (firstPoint :: rest).getLast (List.cons_ne_nil _ _)
    let xOffset := lastPoint.x - firstPoint.x
    let yOffset := lastPoint.y - firstPoint.y
    let timeOffset := lastPoint.time - firstPoint.time
    let D := timeOffset / 15 / s.multiplier
    let s := { s with decVelX := xOffset / D, decVelY := yOffset / D }
    let diff := boundsDiff s
    if 1 < |s.decVelX| ∨ 1 < |s.decVelY| ∨ diff.inBounds = false then
      { s with decelerating := true, stepDecelRaf := true }
    else s

/-- JS `stopTracking`: ends the drag, records a final sample, attempts to
start deceleration. -/
def stopTracking (now : ℚ) (s : EngineState) : EngineState :=
  let s := { s with pointerActive := false }
  let s := addTrackingPoint s.pointerLastX s.pointerLastY now s
  startDecelAnim s

/-- JS `onUp`: handles up/end events for the tracked pointer. -/
def onUp (id : Option ℤ) (now : ℚ) (s : EngineState) : EngineState :=
  if s.pointerActive = true ∧ id = s.pointerId then stopTracking now s else s

/-- JS `onDown`: begins tracking a pointer when idle and not paused. -/
def onDown (x y : ℚ) (id : Option ℤ) (now : ℚ) (s : EngineState) : EngineState :=
  if s.pointerActive = false ∧ s.paused = false then
    let s := { s with
        pointerActive := true, decelerating := false, pointerId := id,
        pointerCurrentX := x, pointerCurrentY := y,
        pointerLastX := x, pointerLastY := y,
        trackingPoints := [] }
    addTrackingPoint s.pointerLastX s.pointerLastY now s
  else s

/-- JS `onMove`: stores the current pointer position and requests a tick.
Events carrying `deltaX` / `deltaY` take the `ev.deltaX != null` branch. -/
def onMove (x y : ℚ) (id : Option ℤ) (deltaX deltaY : Option ℚ) (now : ℚ)
    (s : EngineState) : EngineState :=
  if s.pointerActive = true ∧ id = s.pointerId then
    let s :=
      match deltaX with
      | some dx =>
          { s with pointerCurrentX := x + dx, pointerCurrentY := y + deltaY.getD 0 }
      | none => { s with pointerCurrentX := x, pointerCurrentY := y }
    let s := addTrackingPoint s.pointerLastX s.pointerLastY now s
    requestTick s
  else s

/-- JS `destroy`: detaches the constructor-installed listeners and nulls
the source element; the pending frame slots are left untouched. -/
def destroy (s : EngineState) : EngineState :=
  { s with listenersAttached := false }

/-- JS `pause`: drops tracking and gates future down events. -/
def pause (s : EngineState) : EngineState :=
  { s with pointerActive := false, paused := true }

/-- JS `resume`. -/
def resume (s : EngineState) : EngineState :=
  { s with paused := false }

/-- JS `setValue(x, y)`: each axis is written only when a number is
supplied. -/
def setValue (x y : Option ℚ) (s : EngineState) : EngineState :=
  let s := match x with | some vx => { s with targetX := vx } | none => s
  match y with | some vy => { s with targetY := vy } | none => s

/-- JS `setMultiplier`. -/
def setMultiplier (v : ℚ) (s : EngineState) : EngineState :=
  { s with multiplier := v, stopThreshold := STOP_THRESHOLD_DEFAULT * v }

/-- JS `setBoundX`. -/
def setBoundX (bmin bmax : Option ℚ) (s : EngineState) : EngineState :=
  { s with boundXmin := bmin, boundXmax := bmax }

/-- JS `setBoundY`. -/
def setBoundY (bmin bmax : Option ℚ) (s : EngineState) : EngineState :=
  { s with boundYmin := bmin, boundYmax := bmax }

/-- JS `cancel`: resets phase flags and velocities and unschedules both
pending frame callbacks. -/
def cancel (s : EngineState) : EngineState :=
  { s with
      decelerating := false, pointerActive := false, ticking := false,
      decVelX := 0, decVelY := 0,
      stepDecelRaf := false, tickRaf := false }

/-- Spec wording (§4.2) of the per-axis overflow, written from the spec
sentence for the refinement check against `axisOverflow`. -/
def specAxisOverflow (bmin bmax : Option ℚ) (target : ℚ) : ℚ :=
  if bmin.isSome ∧ target < bmin.getD 0 then bmin.getD 0 - target
  else if bmax.isSome ∧ bmax.getD 0 < target then bmax.getD 0 - target
  else 0

/-- JS IEEE-754 double values as needed for the velocity estimation.
Finite values are exact rationals.  Negative zero does not arise in the
expressions modelled here: every zero denominator is produced by
subtraction of equal values or by dividing +0 by a positive constant,
both of which give +0 in JS. -/
inductive JSVal where
  | fin : ℚ → JSVal
  | posInf : JSVal
  | negInf : JSVal
  | nan : JSVal
  deriving Repr, DecidableEq

/-- JS division on the modelled values. -/
def jdiv : JSVal → JSVal → JSVal
  | .nan, _ => .nan
  | _, .nan => .nan
  | .fin a, .fin b =>
      if b = 0 then (if a = 0 then .nan else if 0 < a then .posInf else .negInf)
      else .fin (a / b)
  | .fin _, .posInf => .fin 0
  | .fin _, .negInf => .fin 0
  | .posInf, .fin b => if 0 ≤ b then .posInf else .negInf
  | .negInf, .fin b => if 0 ≤ b then .negInf else .posInf
  | .posInf, _ => .nan
  | .negInf, _ => .nan

/-- JS `v || 0`: among the modelled values exactly `NaN` and `0` are
falsy, so exactly they are replaced by the literal 0. -/
def jsOrZero (v : JSVal) : JSVal :=
  if v = .nan ∨ v = .fin 0 then .fin 0 else v

/-- Velocity estimation of `startDecelAnim` with exact JS number
semantics: `((last.x - first.x) / ((last.time - first.time) / 15 / multiplier)) || 0`. -/
def jsEstimatedVel (x0 t0 x1 t1 multiplier : ℚ) : JSVal :=
  let xOffset := x1 - x0
  let timeOffset := t1 - t0
  let D := jdiv (jdiv (.fin timeOffset) (.fin 15)) (.fin multiplier)
  jsOrZero (jdiv (.fin xOffset) D)

/-- Concrete state exercising the restrict clamp for the C4 witness. -/
def cbState : EngineState :=
  { initState with boundXmin := some 0, boundXmax := some 100, targetX := -30 }

/-- State with bounce disabled and the x axis bounded to [0, 100]. -/
def c1State : EngineState :=
  { initState with bounce := false, boundXmin := some 0, boundXmax := some 100 }

/-- State with bounce disabled, both axes bounded, decelerating, used as
the C1 witness input. -/
def c1wState : EngineState :=
  { initState with
      bounce := false, decelerating := true, targetX := 200, targetY := 10,
      boundXmin := some 0, boundXmax := some 100,
      boundYmin := some 0, boundYmax := some 50 }

/-- State with both frame slots holding a pending callback. -/
def pendingState : EngineState := { initState with stepDecelRaf := true, tickRaf := true }

/-- Paused engine state for the C10 witness. -/
def pausedState : EngineState := { initState with paused := true }

/-- Phase-flag exclusivity: the engine is never simultaneously
decelerating and tracking a pointer. -/
def phaseOk (s : EngineState) : Prop :=
  s.decelerating = false ∨ s.pointerActive = false

/-- One application of `decVelX *= friction` from `stepDecelAnim`. -/
def frictionMul (friction v : ℚ) : ℚ := v * friction

/-- Decelerating state with a large velocity, used by the C5 witness. -/
def c5wState : EngineState := { initState with decelerating := true, decVelX := 4 }

/-- State beyond the x max bound still moving outward, used by the C6
witness. -/
def c6wState : EngineState :=
  { initState with
      decelerating := true, targetX := 120, decVelX := 5,
      boundXmin := some 0, boundXmax := some 100 }

/-- Decelerating state with no bounds, used by the C7 witness. -/
def c7wState : EngineState :=
  { initState with decelerating := true, decVelX := 2, decVelY := -3 }

/-- State tracking a pointer, used by the C9 witness. -/
def c9wState : EngineState := { initState with pointerActive := true }

/-! Basic facts about the bounds evaluator -/

theorem axisOverflow_eq_zero {mn mx t : ℚ} :
    axisOverflow (some mn) (some mx) t = 0 ↔ mn ≤ t ∧ t ≤ mx := by
  simp only [axisOverflow]
  split_ifs with h1 h2
  · constructor
    · intro h; have := sub_eq_zero.mp h; constructor <;> linarith
    · intro h; linarith [h.1]
  · constructor
    · intro h; have := sub_eq_zero.mp h; constructor <;> linarith
    · intro h; linarith [h.2]
  · exact ⟨fun _ => ⟨le_of_not_lt h1, le_of_not_lt h2⟩, fun _ => rfl⟩

theorem axisOverflow_pos {bmin bmax : Option ℚ} {t : ℚ}
    (h : 0 < axisOverflow bmin bmax t) :
    ∃ mn, bmin = some mn ∧ t < mn ∧ axisOverflow bmin bmax t = mn - t := by
  rcases bmin with _ | mn <;> rcases bmax with _ | mx <;> simp only [axisOverflow] at h ⊢
  · exact absurd h (lt_irrefl 0)
  · split_ifs at h ⊢ with h1
    · exact absurd h (by linarith)
    · exact absurd h (lt_irrefl 0)
  · split_ifs at h ⊢ with h1
    · exact ⟨mn, rfl, h1, rfl⟩
    · exact absurd h (lt_irrefl 0)
  · split_ifs at h ⊢ with h1 h2
    · exact ⟨mn, rfl, h1, rfl⟩
    · exact absurd h (by linarith)
    · exact absurd h (lt_irrefl 0)

theorem axisOverflow_neg {bmin bmax : Option ℚ} {t : ℚ}
    (h : axisOverflow bmin bmax t < 0) :
    ∃ mx, bmax = some mx ∧ mx < t ∧ axisOverflow bmin bmax t = mx - t := by
  rcases bmin with _ | mn <;> rcases bmax with _ | mx <;> simp only [axisOverflow] at h ⊢
  · exact absurd h (lt_irrefl 0)
  · split_ifs at h ⊢ with h1
    · exact ⟨mx, rfl, h1, rfl⟩
    · exact absurd h (lt_irrefl 0)
  · split_ifs at h ⊢ with h1
    · exact absurd h (by linarith)
    · exact absurd h (lt_irrefl 0)
  · split_ifs at h ⊢ with h1 h2
    · exact absurd h (by linarith)
    · exact ⟨mx, rfl, h2, rfl⟩
    · exact absurd h (lt_irrefl 0)

theorem axisOverflow_eq_spec (bmin bmax : Option ℚ) (t : ℚ) :
    axisOverflow bmin bmax t = specAxisOverflow bmin bmax t := by
  rcases bmin with _ | mn <;> rcases bmax with _ | mx <;>
    simp [axisOverflow, specAxisOverflow]

theorem checkBounds_snd (s : EngineState) (r : Bool) :
    (checkBounds s r).2 = boundsDiff s := rfl

theorem checkBounds_false_fst (s : EngineState) :
    (checkBounds s false).1 = s := by
  simp [checkBounds]

theorem checkBounds_fst_targetX (s : EngineState) (r : Bool) :
    (checkBounds s r).1.targetX =
      if r = true ∧ axisOverflow s.boundXmin s.boundXmax s.targetX ≠ 0 then
        (if 0 < axisOverflow s.boundXmin s.boundXmax s.targetX then s.boundXmin.getD 0
         else s.boundXmax.getD 0)
      else s.targetX := by
  simp only [checkBounds, boundsDiff]
  split_ifs <;> rfl

theorem checkBounds_fst_targetY (s : EngineState) (r : Bool) :
    (checkBounds s r).1.targetY =
      if r = true ∧ axisOverflow s.boundYmin s.boundYmax s.targetY ≠ 0 then
        (if 0 < axisOverflow s.boundYmin s.boundYmax s.targetY then s.boundYmin.getD 0
         else s.boundYmax.getD 0)
      else s.targetY := by
  simp only [checkBounds, boundsDiff]
  split_ifs <;> rfl

/-! Projections of the two overflow-adjustment branches of `stepDecelAnim` -/

@[simp] theorem bounceAdjust_targetX (d : BoundsDiff) (s : EngineState) :
    (bounceAdjust d s).targetX = s.targetX := by
  simp only [bounceAdjust]; split_ifs <;> rfl

@[simp] theorem bounceAdjust_targetY (d : BoundsDiff) (s : EngineState) :
    (bounceAdjust d s).targetY = s.targetY := by
  simp only [bounceAdjust]; split_ifs <;> rfl

@[simp] theorem bounceAdjust_decelerating (d : BoundsDiff) (s : EngineState) :
    (bounceAdjust d s).decelerating = s.decelerating := by
  simp only [bounceAdjust]; split_ifs <;> rfl

@[simp] theorem bounceAdjust_pointerActive (d : BoundsDiff) (s : EngineState) :
    (bounceAdjust d s).pointerActive = s.pointerActive := by
  simp only [bounceAdjust]; split_ifs <;> rfl

@[simp] theorem bounceAdjust_boundXmin (d : BoundsDiff) (s : EngineState) :
    (bounceAdjust d s).boundXmin = s.boundXmin := by
  simp only [bounceAdjust]; split_ifs <;> rfl

@[simp] theorem bounceAdjust_boundXmax (d : BoundsDiff) (s : EngineState) :
    (bounceAdjust d s).boundXmax = s.boundXmax := by
  simp only [bounceAdjust]; split_ifs <;> rfl

@[simp] theorem bounceAdjust_boundYmin (d : BoundsDiff) (s : EngineState) :
    (bounceAdjust d s).boundYmin = s.boundYmin := by
  simp only [bounceAdjust]; split_ifs <;> rfl

@[simp] theorem bounceAdjust_boundYmax (d : BoundsDiff) (s : EngineState) :
    (bounceAdjust d s).boundYmax = s.boundYmax := by
  simp only [bounceAdjust]; split_ifs <;> rfl

@[simp] theorem bounceAdjust_friction (d : BoundsDiff) (s : EngineState) :
    (bounceAdjust d s).friction = s.friction := by
  simp only [bounceAdjust]; split_ifs <;> rfl

@[simp] theorem bounceAdjust_stopThreshold (d : BoundsDiff) (s : EngineState) :
    (bounceAdjust d s).stopThreshold = s.stopThreshold := by
  simp only [bounceAdjust]; split_ifs <;> rfl

@[simp] theorem bounceAdjust_bounce (d : BoundsDiff) (s : EngineState) :
    (bounceAdjust d s).bounce = s.bounce := by
  simp only [bounceAdjust]; split_ifs <;> rfl

@[simp] theorem bounceAdjust_stepDecelRaf (d : BoundsDiff) (s : EngineState) :
    (bounceAdjust d s).stepDecelRaf = s.stepDecelRaf := by
  simp only [bounceAdjust]; split_ifs <;> rfl

@[simp] theorem bounceAdjust_updates (d : BoundsDiff) (s : EngineState) :
    (bounceAdjust d s).updates = s.updates := by
  simp only [bounceAdjust]; split_ifs <;> rfl

@[simp] theorem clampAdjust_updates (d : BoundsDiff) (s : EngineState) :
    (clampAdjust d s).updates = s.updates := by
  simp only [clampAdjust]; split_ifs <;> rfl

theorem bounceAdjust_decVelX (d : BoundsDiff) (s : EngineState) :
    (bounceAdjust d s).decVelX =
      if d.x ≠ 0 then bounceAxisVel d.x s.decVelX else s.decVelX := by
  simp only [bounceAdjust]; split_ifs <;> rfl

theorem bounceAdjust_decVelY (d : BoundsDiff) (s : EngineState) :
    (bounceAdjust d s).decVelY =
      if d.y ≠ 0 then bounceAxisVel d.y s.decVelY else s.decVelY := by
  simp only [bounceAdjust]; split_ifs <;> rfl

@[simp] theorem clampAdjust_decelerating (d : BoundsDiff) (s : EngineState) :
    (clampAdjust d s).decelerating = s.decelerating := by
  simp only [clampAdjust]; split_ifs <;> rfl

@[simp] theorem clampAdjust_pointerActive (d : BoundsDiff) (s : EngineState) :
    (clampAdjust d s).pointerActive = s.pointerActive := by
  simp only [clampAdjust]; split_ifs <;> rfl

@[simp] theorem clampAdjust_boundXmin (d : BoundsDiff) (s : EngineState) :
    (clampAdjust d s).boundXmin = s.boundXmin := by
  simp only [clampAdjust]; split_ifs <;> rfl

@[simp] theorem clampAdjust_boundXmax (d : BoundsDiff) (s : EngineState) :
    (clampAdjust d s).boundXmax = s.boundXmax := by
  simp only [clampAdjust]; split_ifs <;> rfl

@[simp] theorem clampAdjust_boundYmin (d : BoundsDiff) (s : EngineState) :
    (clampAdjust d s).boundYmin = s.boundYmin := by
  simp only [clampAdjust]; split_ifs <;> rfl

@[simp] theorem clampAdjust_boundYmax (d : BoundsDiff) (s : EngineState) :
    (clampAdjust d s).boundYmax = s.boundYmax := by
  simp only [clampAdjust]; split_ifs <;> rfl

@[simp] theorem clampAdjust_friction (d : BoundsDiff) (s : EngineState) :
    (clampAdjust d s).friction = s.friction := by
  simp only [clampAdjust]; split_ifs <;> rfl

@[simp] theorem clampAdjust_stopThreshold (d : BoundsDiff) (s : EngineState) :
    (clampAdjust d s).stopThreshold = s.stopThreshold := by
  simp only [clampAdjust]; split_ifs <;> rfl

@[simp] theorem clampAdjust_bounce (d : BoundsDiff) (s : EngineState) :
    (clampAdjust d s).bounce = s.bounce := by
  simp only [clampAdjust]; split_ifs <;> rfl

@[simp] theorem clampAdjust_stepDecelRaf (d : BoundsDiff) (s : EngineState) :
    (clampAdjust d s).stepDecelRaf = s.stepDecelRaf := by
  simp only [clampAdjust]; split_ifs <;> rfl

theorem clampAdjust_targetX (d : BoundsDiff) (s : EngineState) :
    (clampAdjust d s).targetX =
      if d.x ≠ 0 then (if 0 < d.x then s.boundXmin.getD 0 else s.boundXmax.getD 0)
      else s.targetX := by
  simp only [clampAdjust]; split_ifs <;> rfl

theorem clampAdjust_targetY (d : BoundsDiff) (s : EngineState) :
    (clampAdjust d s).targetY =
      if d.y ≠ 0 then (if 0 < d.y then s.boundYmin.getD 0 else s.boundYmax.getD 0)
      else s.targetY := by
  simp only [clampAdjust]; split_ifs <;> rfl

theorem clampAdjust_decVelX (d : BoundsDiff) (s : EngineState) :
    (clampAdjust d s).decVelX = if d.x ≠ 0 then 0 else s.decVelX := by
  simp only [clampAdjust]; split_ifs <;> rfl

theorem clampAdjust_decVelY (d : BoundsDiff) (s : EngineState) :
    (clampAdjust d s).decVelY = if d.y ≠ 0 then 0 else s.decVelY := by
  simp only [clampAdjust]; split_ifs <;> rfl

/-- Membership of the hard-clamp result when both bounds are set. -/
theorem clamp_target_mem {mn mx t a : ℚ} (hle : mn ≤ mx)
    (ha : a = axisOverflow (some mn) (some mx) t) :
    mn ≤ (if a ≠ 0 then (if 0 < a then mn else mx) else t) ∧
    (if a ≠ 0 then (if 0 < a then mn else mx) else t) ≤ mx := by
  split_ifs with h1 h2
  · exact ⟨le_refl mn, hle⟩
  · exact ⟨hle, le_refl mx⟩
  · push_neg at h1
    exact axisOverflow_eq_zero.mp (ha ▸ h1)

/-- C4: `checkBounds` returns per-axis overflow exactly as the spec
formula states it, `inBounds` is true iff both overflows are 0, and with
`restrict` each axis with nonzero overflow has its target rewritten to
`min` (overflow positive) or `max` (overflow negative), all other state
unchanged. -/
theorem checkBounds_matches_spec (s : EngineState) (restrict : Bool) :
    ((checkBounds s restrict).2.x = specAxisOverflow s.boundXmin s.boundXmax s.targetX) ∧
    ((checkBounds s restrict).2.y = specAxisOverflow s.boundYmin s.boundYmax s.targetY) ∧
    ((checkBounds s restrict).2.inBounds = true ↔
      ((checkBounds s restrict).2.x = 0 ∧ (checkBounds s restrict).2.y = 0)) ∧
    (∀ mn, s.boundXmin = some mn → 0 < (checkBounds s restrict).2.x → restrict = true →
      (checkBounds s restrict).1.targetX = mn) ∧
    (∀ mx, s.boundXmax = some mx → (checkBounds s restrict).2.x < 0 → restrict = true →
      (checkBounds s restrict).1.targetX = mx) ∧
    ((checkBounds s restrict).2.x = 0 → (checkBounds s restrict).1.targetX = s.targetX) ∧
    (∀ mn, s.boundYmin = some mn → 0 < (checkBounds s restrict).2.y → restrict = true →
      (checkBounds s restrict).1.targetY = mn) ∧
    (∀ mx, s.boundYmax = some mx → (checkBounds s restrict).2.y < 0 → restrict = true →
      (checkBounds s restrict).1.targetY = mx) ∧
    ((checkBounds s restrict).2.y = 0 → (checkBounds s restrict).1.targetY = s.targetY) ∧
    (restrict = false → (checkBounds s restrict).1 = s) ∧
    ((checkBounds s restrict).1.decVelX = s.decVelX ∧
     (checkBounds s restrict).1.decVelY = s.decVelY ∧
     (checkBounds s restrict).1.bounce = s.bounce ∧
     (checkBounds s restrict).1.friction = s.friction ∧
     (checkBounds s restrict).1.multiplier = s.multiplier ∧
     (checkBounds s restrict).1.stopThreshold = s.stopThreshold ∧
     (checkBounds s restrict).1.paused = s.paused ∧
     (checkBounds s restrict).1.ticking = s.ticking ∧
     (checkBounds s restrict).1.trackingPoints = s.trackingPoints ∧
     (checkBounds s restrict).1.pointerCurrentX = s.pointerCurrentX ∧
     (checkBounds s restrict).1.pointerCurrentY = s.pointerCurrentY ∧
     (checkBounds s restrict).1.pointerLastX = s.pointerLastX ∧
     (checkBounds s restrict).1.pointerLastY = s.pointerLastY ∧
     (checkBounds s restrict).1.pointerId = s.pointerId ∧
     (checkBounds s restrict).1.boundXmin = s.boundXmin ∧
     (checkBounds s restrict).1.boundXmax = s.boundXmax ∧
     (checkBounds s restrict).1.boundYmin = s.boundYmin ∧
     (checkBounds s restrict).1.boundYmax = s.boundYmax ∧
     (checkBounds s restrict).1.decelerating = s.decelerating ∧
     (checkBounds s restrict).1.pointerActive = s.pointerActive ∧
     (checkBounds s restrict).1.stepDecelRaf = s.stepDecelRaf ∧
     (checkBounds s restrict).1.tickRaf = s.tickRaf ∧
     (checkBounds s restrict).1.listenersAttached = s.listenersAttached ∧
     (checkBounds s restrict).1.updates = s.updates) := by
  refine ⟨?_, ?_, ?_, ?_, ?_, ?_, ?_, ?_, ?_, ?_, ?_⟩
  · rw [checkBounds_snd]; exact axisOverflow_eq_spec _ _ _
  · rw [checkBounds_snd]; exact axisOverflow_eq_spec _ _ _
  · rw [checkBounds_snd]; simp [boundsDiff]
  · intro mn hmn hpos hr
    rw [checkBounds_snd] at hpos
    simp only [checkBounds, boundsDiff, hr] at hpos ⊢
    split_ifs with h1 h2 <;> simp_all
  · intro mx hmx hneg hr
    rw [checkBounds_snd] at hneg
    simp only [checkBounds, boundsDiff, hr] at hneg ⊢
    split_ifs with h1 h2 <;> simp_all <;> linarith
  · intro h0
    rw [checkBounds_snd] at h0
    simp only [checkBounds, boundsDiff] at h0 ⊢
    split_ifs with h1 h2 <;> simp_all
  · intro mn hmn hpos hr
    rw [checkBounds_snd] at hpos
    simp only [checkBounds, boundsDiff, hr] at hpos ⊢
    split_ifs with h1 h2 <;> simp_all
  · intro mx hmx hneg hr
    rw [checkBounds_snd] at hneg
    simp only [checkBounds, boundsDiff, hr] at hneg ⊢
    split_ifs with h1 h2 <;> simp_all <;> linarith
  · intro h0
    rw [checkBounds_snd] at h0
    simp only [checkBounds, boundsDiff] at h0 ⊢
    split_ifs with h1 h2 <;> simp_all
  · intro hr; subst hr; exact checkBounds_false_fst s
  · simp only [checkBounds, boundsDiff]
    split_ifs <;> simp

theorem checkBounds_matches_spec_w :
    cbState.boundXmin = some 0 ∧ (0 : ℚ) < (checkBounds cbState true).2.x ∧
    (checkBounds cbState true).1.targetX = 0 := by
  refine ⟨rfl, by norm_num [checkBounds_snd, cbState, boundsDiff, axisOverflow, initState], ?_⟩
  exact (checkBounds_matches_spec cbState true).2.2.2.1 0 rfl
    (by norm_num [checkBounds_snd, cbState, boundsDiff, axisOverflow, initState]) rfl

/-- C8: the drag resistance curve is at least 0.55 on nonnegative
overflow and strictly increasing on positive overflow. -/
theorem dragOutOfBoundsMultiplier_mono (o o1 o2 : ℚ)
    (h0 : 0 ≤ o) (h1 : 0 < o1) (h2 : o1 < o2) :
    55 / 100 ≤ dragOutOfBoundsMultiplier o ∧
    dragOutOfBoundsMultiplier o1 < dragOutOfBoundsMultiplier o2 := by
  constructor
  · unfold dragOutOfBoundsMultiplier; nlinarith
  · unfold dragOutOfBoundsMultiplier; nlinarith

theorem dragOutOfBoundsMultiplier_mono_w :
    (0 : ℚ) ≤ 0 ∧ (0 : ℚ) < 1 ∧ (1 : ℚ) < 2 ∧
    (55 / 100 ≤ dragOutOfBoundsMultiplier 0 ∧
     dragOutOfBoundsMultiplier 1 < dragOutOfBoundsMultiplier 2) :=
  ⟨le_refl 0, by norm_num, by norm_num,
   dragOutOfBoundsMultiplier_mono 0 1 2 (le_refl 0) (by norm_num) (by norm_num)⟩

/-! Hard-clamp invariant (claim C1) -/

theorem checkBounds_restrict_targetX {s : EngineState} {mn mx : ℚ}
    (h1 : s.boundXmin = some mn) (h2 : s.boundXmax = some mx) (hle : mn ≤ mx) :
    mn ≤ (checkBounds s true).1.targetX ∧ (checkBounds s true).1.targetX ≤ mx := by
  rw [checkBounds_fst_targetX, h1, h2]
  split_ifs with hA hB
  · simp only [Option.getD_some]
    exact ⟨le_refl mn, hle⟩
  · simp only [Option.getD_some]
    exact ⟨hle, le_refl mx⟩
  · push_neg at hA
    exact axisOverflow_eq_zero.mp (hA rfl)

theorem checkBounds_restrict_targetY {s : EngineState} {mn mx : ℚ}
    (h1 : s.boundYmin = some mn) (h2 : s.boundYmax = some mx) (hle : mn ≤ mx) :
    mn ≤ (checkBounds s true).1.targetY ∧ (checkBounds s true).1.targetY ≤ mx := by
  rw [checkBounds_fst_targetY, h1, h2]
  split_ifs with hA hB
  · simp only [Option.getD_some]
    exact ⟨le_refl mn, hle⟩
  · simp only [Option.getD_some]
    exact ⟨hle, le_refl mx⟩
  · push_neg at hA
    exact axisOverflow_eq_zero.mp (hA rfl)

/-- C1 amended: with bounce disabled and both bounds set on each axis
(consistently ordered), a drag-update tick always leaves the target inside
the bounds, and so does a deceleration step taken while decelerating;
`setValue` is excluded because it writes the target without clamping. -/
theorem clamped_after_update_cycle (s : EngineState)
    (hb : s.bounce = false)
    {mnx mxx mny mxy : ℚ}
    (hx1 : s.boundXmin = some mnx) (hx2 : s.boundXmax = some mxx) (hxle : mnx ≤ mxx)
    (hy1 : s.boundYmin = some mny) (hy2 : s.boundYmax = some mxy) (hyle : mny ≤ mxy) :
    (mnx ≤ (updateAndRender s).targetX ∧ (updateAndRender s).targetX ≤ mxx ∧
     mny ≤ (updateAndRender s).targetY ∧ (updateAndRender s).targetY ≤ mxy) ∧
    (s.decelerating = true →
      (mnx ≤ (stepDecelAnim s).targetX ∧ (stepDecelAnim s).targetX ≤ mxx ∧
       mny ≤ (stepDecelAnim s).targetY ∧ (stepDecelAnim s).targetY ≤ mxy)) := by
  constructor
  · simp only [updateAndRender, hb, callUpdateCallback]
    norm_num
    refine ⟨(checkBounds_restrict_targetX ?_ ?_ hxle).1,
            (checkBounds_restrict_targetX ?_ ?_ hxle).2,
            (checkBounds_restrict_targetY ?_ ?_ hyle).1,
            (checkBounds_restrict_targetY ?_ ?_ hyle).2⟩ <;>
      simp [hx1, hx2, hy1, hy2]
  · intro hd
    by_cases hstop : |s.decVelX * s.friction| ≤ s.stopThreshold ∧
        |s.decVelY * s.friction| ≤ s.stopThreshold ∧
        (axisOverflow s.boundXmin s.boundXmax (s.targetX + s.decVelX * s.friction) = 0 ∧
         axisOverflow s.boundYmin s.boundYmax (s.targetY + s.decVelY * s.friction) = 0)
    · obtain ⟨h1, h2, h3x, h3y⟩ := hstop
      have hmx := axisOverflow_eq_zero.mp (show axisOverflow (some mnx) (some mxx)
        (s.targetX + s.decVelX * s.friction) = 0 by rw [← hx1, ← hx2]; exact h3x)
      have hmy := axisOverflow_eq_zero.mp (show axisOverflow (some mny) (some mxy)
        (s.targetY + s.decVelY * s.friction) = 0 by rw [← hy1, ← hy2]; exact h3y)
      simp only [stepDecelAnim, hd, boundsDiff, callUpdateCallback]
      norm_num [h1, h2, h3x, h3y]
      exact ⟨hmx.1, hmx.2, hmy.1, hmy.2⟩
    · simp only [stepDecelAnim, hd, hb, boundsDiff, callUpdateCallback]
      norm_num
      rw [if_neg (by simpa using hstop)]
      simp only [clampAdjust_targetX, clampAdjust_targetY, hx1, hx2, hy1, hy2,
        Option.getD_some]
      refine ⟨(clamp_target_mem hxle rfl).1, (clamp_target_mem hxle rfl).2,
              (clamp_target_mem hyle rfl).1, (clamp_target_mem hyle rfl).2⟩

theorem clamped_after_update_cycle_w :
    c1wState.bounce = false ∧ c1wState.decelerating = true ∧
    ((0 : ℚ) ≤ 100) ∧ ((0 : ℚ) ≤ 50) ∧
    ((0 ≤ (updateAndRender c1wState).targetX ∧ (updateAndRender c1wState).targetX ≤ 100 ∧
      0 ≤ (updateAndRender c1wState).targetY ∧ (updateAndRender c1wState).targetY ≤ 50) ∧
     (c1wState.decelerating = true →
       (0 ≤ (stepDecelAnim c1wState).targetX ∧ (stepDecelAnim c1wState).targetX ≤ 100 ∧
        0 ≤ (stepDecelAnim c1wState).targetY ∧ (stepDecelAnim c1wState).targetY ≤ 50))) :=
  ⟨rfl, rfl, by norm_num, by norm_num,
   clamped_after_update_cycle c1wState rfl rfl rfl (by norm_num) rfl rfl (by norm_num)⟩

/-- C1 counterexample: `setValue` writes the target directly and performs
no bounds clamping, so the claimed invariant fails right after `setValue`
completes. -/
theorem setValue_escapes_bounds :
    c1State.bounce = false ∧ c1State.boundXmin = some 0 ∧ c1State.boundXmax = some 100 ∧
    (setValue (some 200) none c1State).targetX = 200 ∧ ¬ ((200 : ℚ) ≤ 100) :=
  ⟨rfl, rfl, rfl, rfl, by norm_num⟩

/-! Cancellation of pending frames (claim C3) -/

/-- C3 counterexample: after `destroy()` returns, a pending deceleration
frame and a pending drag tick are still scheduled, so a previously
scheduled engine callback still fires afterwards. -/
theorem destroy_leaves_pending_frame :
    (destroy pendingState).stepDecelRaf = true ∧ (destroy pendingState).tickRaf = true :=
  ⟨rfl, rfl⟩

/-- C3 amended: `cancel()` synchronously unschedules both scheduling
slots; `destroy()` only detaches the listeners and leaves both slots
exactly as they were. -/
theorem cancel_unschedules_frames (s : EngineState) :
    (cancel s).stepDecelRaf = false ∧ (cancel s).tickRaf = false ∧
    (destroy s).stepDecelRaf = s.stepDecelRaf ∧ (destroy s).tickRaf = s.tickRaf :=
  ⟨rfl, rfl, rfl, rfl⟩

/-! Wheel input is not gated by pause (claim C10) -/

/-- C10: a wheel event in a paused state still moves the target by
`-delta/3` per axis and fires the update callback exactly once, while
`onDown` is a no-op in the paused state. -/
theorem onWheel_ignores_paused (s : EngineState) (dX dY : ℚ) (h : s.paused = true) :
    (onWheel dX dY s).targetX = s.targetX - dX / 3 ∧
    (onWheel dX dY s).targetY = s.targetY - dY / 3 ∧
    (onWheel dX dY s).updates = s.updates + 1 ∧
    (∀ x y id now, onDown x y id now s = s) := by
  refine ⟨rfl, rfl, rfl, ?_⟩
  intro x y id now
  simp [onDown, h]

theorem onWheel_ignores_paused_w :
    pausedState.paused = true ∧
    ((onWheel 3 6 pausedState).targetX = pausedState.targetX - 3 / 3 ∧
     (onWheel 3 6 pausedState).targetY = pausedState.targetY - 6 / 3 ∧
     (onWheel 3 6 pausedState).updates = pausedState.updates + 1 ∧
     (∀ x y id now, onDown x y id now pausedState = pausedState)) :=
  ⟨rfl, onWheel_ignores_paused pausedState 3 6 rfl⟩

/-! JS number semantics of the release-velocity estimate (claim C2) -/

theorem jsOrZero_fin (r : ℚ) : jsOrZero (JSVal.fin r) = JSVal.fin r := by
  by_cases h : r = 0
  · subst h; simp [jsOrZero]
  · simp [jsOrZero, h]

theorem jsOrZero_ne_nan (v : JSVal) : jsOrZero v ≠ JSVal.nan := by
  unfold jsOrZero
  split_ifs with h
  · simp
  · intro hv
    exact h (Or.inl hv)

/-- C2 counterexample: two samples at the same timestamp but different
positions give velocity `Infinity` (truthy, hence kept by `|| 0`), not 0. -/
theorem jsEstimatedVel_inf :
    jsEstimatedVel 0 0 5 0 1 = JSVal.posInf ∧ jsEstimatedVel 0 0 5 0 1 ≠ JSVal.fin 0 := by
  have h : jsEstimatedVel 0 0 5 0 1 = JSVal.posInf := by
    have e1 : jdiv (JSVal.fin ((0 : ℚ) - 0)) (JSVal.fin 15) = JSVal.fin 0 := by
      norm_num [jdiv]
    have e2 : jdiv (JSVal.fin (0 : ℚ)) (JSVal.fin 1) = JSVal.fin 0 := by
      norm_num [jdiv]
    have e3 : jdiv (JSVal.fin ((5 : ℚ) - 0)) (JSVal.fin 0) = JSVal.posInf := by
      norm_num [jdiv]
    simp only [jsEstimatedVel, e1, e2, e3, jsOrZero]
    rw [if_neg]
    rintro (hc | hc) <;> exact JSVal.noConfusion hc
  exact ⟨h, by rw [h]; intro hc; exact JSVal.noConfusion hc⟩

/-- C2 amended: with `t1 > t0` and a positive multiplier the velocity is
the exact finite quotient of the spec formula; the estimate is never NaN
(NaN is substituted by 0, in particular two identical samples give exactly
0); but equal timestamps with moved position give Infinity, not 0. -/
theorem jsEstimatedVel_spec (x0 t0 x1 t1 m : ℚ) (ht : t0 < t1) (hm : 0 < m) :
    jsEstimatedVel x0 t0 x1 t1 m = JSVal.fin ((x1 - x0) / ((t1 - t0) / 15 / m)) ∧
    (∀ a0 b0 a1 b1 m2, jsEstimatedVel a0 b0 a1 b1 m2 ≠ JSVal.nan) ∧
    (∀ a b m2, jsEstimatedVel a b a b m2 = JSVal.fin 0) := by
  refine ⟨?_, ?_, ?_⟩
  · have hm0 : m ≠ 0 := ne_of_gt hm
    have hq : (t1 - t0) / 15 / m ≠ 0 :=
      ne_of_gt (div_pos (div_pos (by linarith) (by norm_num)) hm)
    have e1 : jdiv (JSVal.fin (t1 - t0)) (JSVal.fin 15) = JSVal.fin ((t1 - t0) / 15) := by
      norm_num [jdiv]
    have e2 : jdiv (JSVal.fin ((t1 - t0) / 15)) (JSVal.fin m) =
        JSVal.fin ((t1 - t0) / 15 / m) := by
      simp [jdiv, hm0]
    have e3 : jdiv (JSVal.fin (x1 - x0)) (JSVal.fin ((t1 - t0) / 15 / m)) =
        JSVal.fin ((x1 - x0) / ((t1 - t0) / 15 / m)) := by
      simp [jdiv, hq]
    simp only [jsEstimatedVel, e1, e2, e3, jsOrZero_fin]
  · intro a0 b0 a1 b1 m2
    exact jsOrZero_ne_nan _
  · intro a b m2
    by_cases hm2 : m2 = 0 <;> simp [jsEstimatedVel, jdiv, jsOrZero, hm2]

theorem jsEstimatedVel_spec_w :
    (0 : ℚ) < 50 ∧ (0 : ℚ) < 1 ∧
    jsEstimatedVel 0 0 10 50 1 = JSVal.fin ((10 - 0) / ((50 - 0) / 15 / 1)) :=
  ⟨by norm_num, by norm_num, (jsEstimatedVel_spec 0 0 10 50 1 (by norm_num) (by norm_num)).1⟩

/-! Shape of one deceleration step (claim C5) -/

/-- C5: in a deceleration step taken while decelerating, each axis
velocity is first multiplied by friction, the decayed velocity is then
added to the target, bounds are re-evaluated on the moved target without
restricting, and the step ends the deceleration phase (decelerating set
false and no further frame scheduled) exactly when both decayed
velocities are within the stop threshold and the moved target is in
bounds. -/
theorem stepDecelAnim_spec (s : EngineState) (h : s.decelerating = true) :
    ((|s.decVelX * s.friction| ≤ s.stopThreshold ∧
      |s.decVelY * s.friction| ≤ s.stopThreshold ∧
      (axisOverflow s.boundXmin s.boundXmax (s.targetX + s.decVelX * s.friction) = 0 ∧
       axisOverflow s.boundYmin s.boundYmax (s.targetY + s.decVelY * s.friction) = 0)) →
      stepDecelAnim s =
        { s with stepDecelRaf := false,
                 decVelX := s.decVelX * s.friction,
                 decVelY := s.decVelY * s.friction,
                 targetX := s.targetX + s.decVelX * s.friction,
                 targetY := s.targetY + s.decVelY * s.friction,
                 decelerating := false }) ∧
    (¬ (|s.decVelX * s.friction| ≤ s.stopThreshold ∧
        |s.decVelY * s.friction| ≤ s.stopThreshold ∧
        (axisOverflow s.boundXmin s.boundXmax (s.targetX + s.decVelX * s.friction) = 0 ∧
         axisOverflow s.boundYmin s.boundYmax (s.targetY + s.decVelY * s.friction) = 0)) →
      ((stepDecelAnim s).decelerating = true ∧ (stepDecelAnim s).stepDecelRaf = true ∧
       (stepDecelAnim s).updates = s.updates + 1)) ∧
    (((stepDecelAnim s).decelerating = false ∧ (stepDecelAnim s).stepDecelRaf = false) ↔
      (|s.decVelX * s.friction| ≤ s.stopThreshold ∧
       |s.decVelY * s.friction| ≤ s.stopThreshold ∧
       (axisOverflow s.boundXmin s.boundXmax (s.targetX + s.decVelX * s.friction) = 0 ∧
        axisOverflow s.boundYmin s.boundYmax (s.targetY + s.decVelY * s.friction) = 0))) := by
  have key1 : (|s.decVelX * s.friction| ≤ s.stopThreshold ∧
      |s.decVelY * s.friction| ≤ s.stopThreshold ∧
      (axisOverflow s.boundXmin s.boundXmax (s.targetX + s.decVelX * s.friction) = 0 ∧
       axisOverflow s.boundYmin s.boundYmax (s.targetY + s.decVelY * s.friction) = 0)) →
      stepDecelAnim s =
        { s with stepDecelRaf := false,
                 decVelX := s.decVelX * s.friction,
                 decVelY := s.decVelY * s.friction,
                 targetX := s.targetX + s.decVelX * s.friction,
                 targetY := s.targetY + s.decVelY * s.friction,
                 decelerating := false } := by
    rintro ⟨h1, h2, h3x, h3y⟩
    simp [stepDecelAnim, h, boundsDiff, h1, h2, h3x, h3y]
  have key2 : ¬ (|s.decVelX * s.friction| ≤ s.stopThreshold ∧
      |s.decVelY * s.friction| ≤ s.stopThreshold ∧
      (axisOverflow s.boundXmin s.boundXmax (s.targetX + s.decVelX * s.friction) = 0 ∧
       axisOverflow s.boundYmin s.boundYmax (s.targetY + s.decVelY * s.friction) = 0)) →
      ((stepDecelAnim s).decelerating = true ∧ (stepDecelAnim s).stepDecelRaf = true ∧
       (stepDecelAnim s).updates = s.updates + 1) := by
    intro hns
    simp only [stepDecelAnim, h, boundsDiff, callUpdateCallback]
    norm_num
    rw [if_neg (by simpa using hns)]
    by_cases hbounce : s.bounce = true <;> simp [hbounce, h]
  refine ⟨key1, key2, ?_, ?_⟩
  · rintro ⟨hdec, _⟩
    by_contra hns
    have hcontra := (key2 hns).1
    rw [hdec] at hcontra
    exact Bool.noConfusion hcontra
  · intro hcond
    rw [key1 hcond]
    exact ⟨rfl, rfl⟩

theorem stepDecelAnim_spec_w :
    c5wState.decelerating = true ∧
    (((stepDecelAnim c5wState).decelerating = false ∧
      (stepDecelAnim c5wState).stepDecelRaf = false) ↔
     (|c5wState.decVelX * c5wState.friction| ≤ c5wState.stopThreshold ∧
      |c5wState.decVelY * c5wState.friction| ≤ c5wState.stopThreshold ∧
      (axisOverflow c5wState.boundXmin c5wState.boundXmax
        (c5wState.targetX + c5wState.decVelX * c5wState.friction) = 0 ∧
       axisOverflow c5wState.boundYmin c5wState.boundYmax
        (c5wState.targetY + c5wState.decVelY * c5wState.friction) = 0))) :=
  ⟨rfl, (stepDecelAnim_spec c5wState rfl).2.2⟩

/-! Bounce velocity adjustment (claim C6) -/

/-- C6: in a deceleration step that does not stop, with bounce enabled,
each axis whose moved target has nonzero overflow o gets velocity
vel + o * 0.04 when o * vel <= 0, otherwise (o + 2.5) * 0.11 when o > 0
and (o - 2.5) * 0.11 when o < 0, where vel is the decayed velocity of
that axis. -/
theorem stepDecelAnim_bounce_spec (s : EngineState) (h : s.decelerating = true)
    (hb : s.bounce = true)
    (hns : ¬ (|s.decVelX * s.friction| ≤ s.stopThreshold ∧
              |s.decVelY * s.friction| ≤ s.stopThreshold ∧
              (axisOverflow s.boundXmin s.boundXmax (s.targetX + s.decVelX * s.friction) = 0 ∧
               axisOverflow s.boundYmin s.boundYmax
                 (s.targetY + s.decVelY * s.friction) = 0))) :
    (axisOverflow s.boundXmin s.boundXmax (s.targetX + s.decVelX * s.friction) ≠ 0 →
      (stepDecelAnim s).decVelX =
        (if axisOverflow s.boundXmin s.boundXmax (s.targetX + s.decVelX * s.friction) *
              (s.decVelX * s.friction) ≤ 0 then
           s.decVelX * s.friction +
             axisOverflow s.boundXmin s.boundXmax (s.targetX + s.decVelX * s.friction) *
               (4 / 100)
         else if 0 < axisOverflow s.boundXmin s.boundXmax
             (s.targetX + s.decVelX * s.friction) then
           (axisOverflow s.boundXmin s.boundXmax (s.targetX + s.decVelX * s.friction) +
               5 / 2) * (11 / 100)
         else
           (axisOverflow s.boundXmin s.boundXmax (s.targetX + s.decVelX * s.friction) -
               5 / 2) * (11 / 100))) ∧
    (axisOverflow s.boundYmin s.boundYmax (s.targetY + s.decVelY * s.friction) ≠ 0 →
      (stepDecelAnim s).decVelY =
        (if axisOverflow s.boundYmin s.boundYmax (s.targetY + s.decVelY * s.friction) *
              (s.decVelY * s.friction) ≤ 0 then
           s.decVelY * s.friction +
             axisOverflow s.boundYmin s.boundYmax (s.targetY + s.decVelY * s.friction) *
               (4 / 100)
         else if 0 < axisOverflow s.boundYmin s.boundYmax
             (s.targetY + s.decVelY * s.friction) then
           (axisOverflow s.boundYmin s.boundYmax (s.targetY + s.decVelY * s.friction) +
               5 / 2) * (11 / 100)
         else
           (axisOverflow s.boundYmin s.boundYmax (s.targetY + s.decVelY * s.friction) -
               5 / 2) * (11 / 100))) := by
  simp only [stepDecelAnim, h, hb, boundsDiff, callUpdateCallback]
  norm_num
  rw [if_neg (by simpa using hns)]
  constructor
  · intro ho
    rw [bounceAdjust_decVelX]
    simp only [ne_eq, ho, not_false_eq_true, if_true, bounceAxisVel]
    split_ifs <;> norm_num [BOUNCE_DECELERATION, BOUNCE_ACCELERATION]
    ring
  · intro ho
    rw [bounceAdjust_decVelY]
    simp only [ne_eq, ho, not_false_eq_true, if_true, bounceAxisVel]
    split_ifs <;> norm_num [BOUNCE_DECELERATION, BOUNCE_ACCELERATION]
    ring

theorem stepDecelAnim_bounce_spec_w :
    c6wState.decelerating = true ∧ c6wState.bounce = true ∧
    (axisOverflow c6wState.boundXmin c6wState.boundXmax
      (c6wState.targetX + c6wState.decVelX * c6wState.friction) ≠ 0 ∧
     (stepDecelAnim c6wState).decVelX =
       (if axisOverflow c6wState.boundXmin c6wState.boundXmax
             (c6wState.targetX + c6wState.decVelX * c6wState.friction) *
             (c6wState.decVelX * c6wState.friction) ≤ 0 then
          c6wState.decVelX * c6wState.friction +
            axisOverflow c6wState.boundXmin c6wState.boundXmax
              (c6wState.targetX + c6wState.decVelX * c6wState.friction) * (4 / 100)
        else if 0 < axisOverflow c6wState.boundXmin c6wState.boundXmax
            (c6wState.targetX + c6wState.decVelX * c6wState.friction) then
          (axisOverflow c6wState.boundXmin c6wState.boundXmax
              (c6wState.targetX + c6wState.decVelX * c6wState.friction) + 5 / 2) * (11 / 100)
        else
          (axisOverflow c6wState.boundXmin c6wState.boundXmax
              (c6wState.targetX + c6wState.decVelX * c6wState.friction) - 5 / 2) *
            (11 / 100))) := by
  refine ⟨rfl, rfl, ?_, ?_⟩
  · norm_num [c6wState, initState, axisOverflow]
  · exact (stepDecelAnim_bounce_spec c6wState rfl rfl
      (by norm_num [c6wState, initState, axisOverflow, STOP_THRESHOLD_DEFAULT])).1
      (by norm_num [c6wState, initState, axisOverflow])

/-! Phase-flag exclusivity (claim C9) -/

@[simp] theorem addTrackingPoint_pointerActive (x y t : ℚ) (s : EngineState) :
    (addTrackingPoint x y t s).pointerActive = s.pointerActive := rfl

@[simp] theorem addTrackingPoint_decelerating (x y t : ℚ) (s : EngineState) :
    (addTrackingPoint x y t s).decelerating = s.decelerating := rfl

@[simp] theorem requestTick_pointerActive (s : EngineState) :
    (requestTick s).pointerActive = s.pointerActive := by
  simp only [requestTick]; split_ifs <;> rfl

@[simp] theorem requestTick_decelerating (s : EngineState) :
    (requestTick s).decelerating = s.decelerating := by
  simp only [requestTick]; split_ifs <;> rfl

@[simp] theorem checkBounds_fst_pointerActive (s : EngineState) (r : Bool) :
    (checkBounds s r).1.pointerActive = s.pointerActive := by
  simp only [checkBounds, boundsDiff]; split_ifs <;> rfl

@[simp] theorem checkBounds_fst_decelerating (s : EngineState) (r : Bool) :
    (checkBounds s r).1.decelerating = s.decelerating := by
  simp only [checkBounds, boundsDiff]; split_ifs <;> rfl

theorem startDecelAnim_pointerActive (s : EngineState) :
    (startDecelAnim s).pointerActive = s.pointerActive := by
  rcases hpts : s.trackingPoints with _ | ⟨p, ps⟩ <;> simp only [startDecelAnim, hpts]
  split_ifs <;> rfl

theorem stepDecelAnim_not_decelerating (s : EngineState) (hd : s.decelerating = false) :
    stepDecelAnim s = { s with stepDecelRaf := false } := by
  simp [stepDecelAnim, hd]

theorem stepDecelAnim_pointerActive (s : EngineState) :
    (stepDecelAnim s).pointerActive = s.pointerActive := by
  by_cases hd : s.decelerating = false
  · rw [stepDecelAnim_not_decelerating s hd]
  · have hd2 : s.decelerating = true := by
      revert hd; cases s.decelerating <;> simp
    simp only [stepDecelAnim, hd2, boundsDiff, callUpdateCallback]
    norm_num
    split_ifs <;> simp

theorem updateAndRender_pointerActive (s : EngineState) :
    (updateAndRender s).pointerActive = s.pointerActive := by
  simp only [updateAndRender, callUpdateCallback]
  split_ifs <;> simp

theorem updateAndRender_decelerating (s : EngineState) :
    (updateAndRender s).decelerating = s.decelerating := by
  simp only [updateAndRender, callUpdateCallback]
  split_ifs <;> simp

theorem onMove_flags (x y : ℚ) (id : Option ℤ) (dX dY : Option ℚ) (now : ℚ)
    (s : EngineState) :
    (onMove x y id dX dY now s).pointerActive = s.pointerActive ∧
    (onMove x y id dX dY now s).decelerating = s.decelerating := by
  rcases dX with _ | dx <;> simp only [onMove] <;> split_ifs <;> exact ⟨by simp, by simp⟩

theorem stopTracking_pointerActive (now : ℚ) (s : EngineState) :
    (stopTracking now s).pointerActive = false := by
  simp only [stopTracking]
  rw [startDecelAnim_pointerActive]
  rfl

/-- C9: from a state where `decelerating` and `pointerActive` are not both
true, every handler and public operation of the engine again yields a
state where they are not both true. -/
theorem phase_flags_exclusive (s : EngineState) (h : phaseOk s)
    (x y wdX wdY now m : ℚ) (id : Option ℤ) (dX dY vx vy bmin bmax : Option ℚ) :
    phaseOk (onDown x y id now s) ∧
    phaseOk (onMove x y id dX dY now s) ∧
    phaseOk (onUp id now s) ∧
    phaseOk (stopTracking now s) ∧
    phaseOk (onWheel wdX wdY s) ∧
    phaseOk (pause s) ∧
    phaseOk (resume s) ∧
    phaseOk (cancel s) ∧
    phaseOk (setValue vx vy s) ∧
    phaseOk (setMultiplier m s) ∧
    phaseOk (setBoundX bmin bmax s) ∧
    phaseOk (setBoundY bmin bmax s) ∧
    phaseOk (requestTick s) ∧
    phaseOk (updateAndRender s) ∧
    phaseOk (stepDecelAnim s) ∧
    phaseOk (destroy s) := by
  refine ⟨?_, ?_, ?_, ?_, ?_, ?_, ?_, ?_, ?_, ?_, ?_, ?_, ?_, ?_, ?_, ?_⟩
  · simp only [onDown]
    split_ifs with hc
    · exact Or.inl (by simp)
    · exact h
  · unfold phaseOk
    rw [(onMove_flags x y id dX dY now s).1, (onMove_flags x y id dX dY now s).2]
    exact h
  · simp only [onUp]
    split_ifs with hc
    · exact Or.inr (stopTracking_pointerActive now s)
    · exact h
  · exact Or.inr (stopTracking_pointerActive now s)
  · exact Or.inl rfl
  · exact Or.inr rfl
  · exact h
  · exact Or.inl rfl
  · rcases vx with _ | vx0 <;> rcases vy with _ | vy0 <;> exact h
  · exact h
  · exact h
  · exact h
  · unfold phaseOk
    rw [requestTick_pointerActive, requestTick_decelerating]
    exact h
  · unfold phaseOk
    rw [updateAndRender_pointerActive, updateAndRender_decelerating]
    exact h
  · by_cases hd : s.decelerating = false
    · rw [stepDecelAnim_not_decelerating s hd]
      exact Or.inl hd
    · rcases h with hdec | hptr
      · exact absurd hdec hd
      · exact Or.inr (by rw [stepDecelAnim_pointerActive]; exact hptr)
  · exact h

theorem phase_flags_exclusive_w :
    phaseOk c9wState ∧
    (phaseOk (onDown 1 2 none 0 c9wState) ∧
     phaseOk (onMove 1 2 none none none 0 c9wState) ∧
     phaseOk (onUp none 0 c9wState) ∧
     phaseOk (stopTracking 0 c9wState) ∧
     phaseOk (onWheel 3 6 c9wState) ∧
     phaseOk (pause c9wState) ∧
     phaseOk (resume c9wState) ∧
     phaseOk (cancel c9wState) ∧
     phaseOk (setValue (some 5) none c9wState) ∧
     phaseOk (setMultiplier 2 c9wState) ∧
     phaseOk (setBoundX (some 0) (some 1) c9wState) ∧
     phaseOk (setBoundY (some 0) (some 1) c9wState) ∧
     phaseOk (requestTick c9wState) ∧
     phaseOk (updateAndRender c9wState) ∧
     phaseOk (stepDecelAnim c9wState) ∧
     phaseOk (destroy c9wState)) :=
  ⟨Or.inl rfl,
   phase_flags_exclusive c9wState (Or.inl rfl) 1 2 3 6 0 2 none none none
     (some 5) none (some 0) (some 1)⟩

/-! Termination of the deceleration loop (claim C7) -/

theorem frictionMul_iterate (f v : ℚ) (n : ℕ) :
    (frictionMul f)^[n] v = v * f ^ n := by
  induction n with
  | zero => simp
  | succ n ih =>
      rw [Function.iterate_succ_apply', ih, frictionMul]
      ring

theorem abs_decay_reaches (f v st : ℚ) (_hf0 : 0 < f) (hf1 : f < 1) (hst : 0 < st) :
    ∃ n : ℕ, |v| * f ^ n ≤ st := by
  rcases eq_or_ne v 0 with hv | hv
  · refine ⟨0, ?_⟩
    simp [hv]
    linarith
  · have hva : 0 < |v| := abs_pos.mpr hv
    obtain ⟨n, hn⟩ := exists_pow_lt_of_lt_one (div_pos hst hva) hf1
    have h2 : f ^ n * |v| < st := (lt_div_iff₀ hva).mp hn
    exact ⟨n, by nlinarith⟩

theorem stepDecelAnim_noBounds (s : EngineState)
    (hb1 : s.boundXmin = none) (hb2 : s.boundXmax = none)
    (hb3 : s.boundYmin = none) (hb4 : s.boundYmax = none)
    (hd : s.decelerating = true) :
    (stepDecelAnim s).boundXmin = none ∧ (stepDecelAnim s).boundXmax = none ∧
    (stepDecelAnim s).boundYmin = none ∧ (stepDecelAnim s).boundYmax = none ∧
    (stepDecelAnim s).friction = s.friction ∧
    (stepDecelAnim s).stopThreshold = s.stopThreshold ∧
    (stepDecelAnim s).decVelX = s.decVelX * s.friction ∧
    (stepDecelAnim s).decVelY = s.decVelY * s.friction ∧
    ((stepDecelAnim s).decelerating = false ↔
      (|s.decVelX * s.friction| ≤ s.stopThreshold ∧
       |s.decVelY * s.friction| ≤ s.stopThreshold)) := by
  by_cases hstop : |s.decVelX * s.friction| ≤ s.stopThreshold ∧
      |s.decVelY * s.friction| ≤ s.stopThreshold
  · obtain ⟨h1, h2⟩ := hstop
    simp [stepDecelAnim, hd, boundsDiff, hb1, hb2, hb3, hb4, axisOverflow, h1, h2]
  · simp only [stepDecelAnim, hd, boundsDiff, hb1, hb2, hb3, hb4, axisOverflow,
      callUpdateCallback]
    norm_num
    rw [if_neg (by simpa using hstop)]
    by_cases hbounce : s.bounce = true <;>
      simp [hbounce, bounceAdjust_decVelX, bounceAdjust_decVelY,
        clampAdjust_decVelX, clampAdjust_decVelY, hstop]

theorem stepDecelAnim_iterate_noBounds (s : EngineState)
    (hb1 : s.boundXmin = none) (hb2 : s.boundXmax = none)
    (hb3 : s.boundYmin = none) (hb4 : s.boundYmax = none) (n : ℕ) :
    (stepDecelAnim^[n] s).decelerating = false ∨
      ((stepDecelAnim^[n] s).boundXmin = none ∧ (stepDecelAnim^[n] s).boundXmax = none ∧
       (stepDecelAnim^[n] s).boundYmin = none ∧ (stepDecelAnim^[n] s).boundYmax = none ∧
       (stepDecelAnim^[n] s).friction = s.friction ∧
       (stepDecelAnim^[n] s).stopThreshold = s.stopThreshold ∧
       (stepDecelAnim^[n] s).decVelX = s.decVelX * s.friction ^ n ∧
       (stepDecelAnim^[n] s).decVelY = s.decVelY * s.friction ^ n ∧
       (stepDecelAnim^[n] s).decelerating = true) := by
  induction n with
  | zero =>
      simp only [Function.iterate_zero_apply]
      rcases Bool.eq_false_or_eq_true s.decelerating with hT | hF
      · exact Or.inr ⟨hb1, hb2, hb3, hb4, trivial, trivial, by rw [pow_zero, mul_one],
          by rw [pow_zero, mul_one], hT⟩
      · exact Or.inl hF
  | succ n ih =>
      rw [Function.iterate_succ_apply']
      rcases ih with hF | ⟨k1, k2, k3, k4, kf, kst, kvx, kvy, kd⟩
      · left
        rw [stepDecelAnim_not_decelerating _ hF]
        simpa using hF
      · have h := stepDecelAnim_noBounds _ k1 k2 k3 k4 kd
        rcases Bool.eq_false_or_eq_true (stepDecelAnim (stepDecelAnim^[n] s)).decelerating
          with hT2 | hF2
        · right
          obtain ⟨g1, g2, g3, g4, gf, gst, gvx, gvy, _⟩ := h
          refine ⟨g1, g2, g3, g4, by rw [gf, kf], by rw [gst, kst], ?_, ?_, hT2⟩
          · rw [gvx, kvx, kf]
            ring
          · rw [gvy, kvy, kf]
            ring
        · exact Or.inl hF2

/-- C7: for any friction in (0,1) and any initial velocity the sequence
`v := v * friction` falls below any positive stop threshold in finitely
many steps; and with no bounds configured (so the target is in bounds at
every step) the deceleration loop itself terminates: some iterate of
`stepDecelAnim` has left the decelerating phase. -/
theorem decel_terminates (f v0 st : ℚ) (s : EngineState)
    (hf0 : 0 < f) (hf1 : f < 1) (hst : 0 < st)
    (hb1 : s.boundXmin = none) (hb2 : s.boundXmax = none)
    (hb3 : s.boundYmin = none) (hb4 : s.boundYmax = none)
    (hsf0 : 0 < s.friction) (hsf1 : s.friction < 1) (hsst : 0 < s.stopThreshold) :
    (∃ n : ℕ, |(frictionMul f)^[n] v0| ≤ st) ∧
    (∃ n : ℕ, (stepDecelAnim^[n] s).decelerating = false) := by
  constructor
  · obtain ⟨n, hn⟩ := abs_decay_reaches f v0 st hf0 hf1 hst
    refine ⟨n, ?_⟩
    rw [frictionMul_iterate, abs_mul, abs_pow, abs_of_pos hf0]
    exact hn
  · obtain ⟨n1, hn1⟩ := abs_decay_reaches s.friction s.decVelX s.stopThreshold hsf0 hsf1 hsst
    obtain ⟨n2, hn2⟩ := abs_decay_reaches s.friction s.decVelY s.stopThreshold hsf0 hsf1 hsst
    have hfN1 : s.friction ^ max n1 n2 ≤ s.friction ^ n1 :=
      pow_le_pow_of_le_one (le_of_lt hsf0) (le_of_lt hsf1) (le_max_left n1 n2)
    have hfN2 : s.friction ^ max n1 n2 ≤ s.friction ^ n2 :=
      pow_le_pow_of_le_one (le_of_lt hsf0) (le_of_lt hsf1) (le_max_right n1 n2)
    have hx : |s.decVelX| * s.friction ^ max n1 n2 ≤ s.stopThreshold :=
      le_trans (mul_le_mul_of_nonneg_left hfN1 (abs_nonneg _)) hn1
    have hy : |s.decVelY| * s.friction ^ max n1 n2 ≤ s.stopThreshold :=
      le_trans (mul_le_mul_of_nonneg_left hfN2 (abs_nonneg _)) hn2
    rcases stepDecelAnim_iterate_noBounds s hb1 hb2 hb3 hb4 (max n1 n2) with
      hF | ⟨k1, k2, k3, k4, kf, kst, kvx, kvy, kd⟩
    · exact ⟨max n1 n2, hF⟩
    · refine ⟨max n1 n2 + 1, ?_⟩
      rw [Function.iterate_succ_apply']
      have h := stepDecelAnim_noBounds _ k1 k2 k3 k4 kd
      refine h.2.2.2.2.2.2.2.2.mpr ⟨?_, ?_⟩
      · rw [kst, kvx, kf]
        have habs : |s.decVelX * s.friction ^ max n1 n2 * s.friction| =
            |s.decVelX| * s.friction ^ max n1 n2 * s.friction := by
          rw [abs_mul, abs_mul, abs_pow, abs_of_pos hsf0]
        rw [habs]
        nlinarith [hx, hsf1, mul_nonneg (abs_nonneg s.decVelX)
          (pow_nonneg (le_of_lt hsf0) (max n1 n2))]
      · rw [kst, kvy, kf]
        have habs : |s.decVelY * s.friction ^ max n1 n2 * s.friction| =
            |s.decVelY| * s.friction ^ max n1 n2 * s.friction := by
          rw [abs_mul, abs_mul, abs_pow, abs_of_pos hsf0]
        rw [habs]
        nlinarith [hy, hsf1, mul_nonneg (abs_nonneg s.decVelY)
          (pow_nonneg (le_of_lt hsf0) (max n1 n2))]

theorem decel_terminates_w :
    (0 : ℚ) < 1 / 2 ∧ (1 / 2 : ℚ) < 1 ∧ (0 : ℚ) < 1 ∧
    c7wState.boundXmin = none ∧ c7wState.boundXmax = none ∧
    c7wState.boundYmin = none ∧ c7wState.boundYmax = none ∧
    0 < c7wState.friction ∧ c7wState.friction < 1 ∧ 0 < c7wState.stopThreshold ∧
    ((∃ n : ℕ, |(frictionMul (1 / 2))^[n] (7 : ℚ)| ≤ 1) ∧
     (∃ n : ℕ, (stepDecelAnim^[n] c7wState).decelerating = false)) :=
  ⟨by norm_num, by norm_num, by norm_num, rfl, rfl, rfl, rfl,
   by norm_num [c7wState, initState], by norm_num [c7wState, initState],
   by norm_num [c7wState, initState, STOP_THRESHOLD_DEFAULT],
   decel_terminates (1 / 2) 7 1 c7wState (by norm_num) (by norm_num) (by norm_num)
     rfl rfl rfl rfl (by norm_num [c7wState, initState])
     (by norm_num [c7wState, initState])
     (by norm_num [c7wState, initState, STOP_THRESHOLD_DEFAULT])⟩

end Impetus
